import Mathlib

/-!
Verification of the mtproto-bridge relay service (`src/main.py`).

The development shallowly embeds the pure data flow of `main.py`:
Python dictionaries become structures with `Option` fields (a missing or
`None` value is `none`), Python integers become `Int`, and the external
collaborators (the Telegram client `tg`, the HTTP fetch of attachment
URLs, the filesystem) are represented by oracle records whose fields say
what each external call would return — `none` standing for a raised
exception.  Handlers are then total Lean functions from request plus
oracle to a response value together with a trace of the externally
visible actions they perform, in order.
-/

namespace MTBridge

/-! ## Models of Python string/int primitives used by `main.py` -/

/-- Model of Python `str.strip()` restricted to the ASCII whitespace that
`Char.isWhitespace` recognises (the inputs in this code base are ASCII). -/
def pyStripList (cs : List Char) : List Char :=
  ((cs.dropWhile Char.isWhitespace).reverse.dropWhile Char.isWhitespace).reverse

/-- Model of Python `str.strip()` on `String`. -/
def pyStrip (s : String) : String := ⟨pyStripList s.data⟩

/-- Model of Python `str.startswith(pre)`: `pyStartsWith pre cs` is true when
`pre` is an initial segment of `cs`. -/
def pyStartsWith : List Char → List Char → Bool
  | [], _ => true
  | _ :: _, [] => false
  | p :: ps, c :: cs => p = c && pyStartsWith ps cs

/-- Model of `s.split(":", 1)[1]`: everything after the first colon.  In
`main.py` this is only evaluated under a guard that guarantees a colon is
present (the `tg_user:` prefix check), so the no-colon `IndexError` case
cannot arise there; we return `[]` for it. -/
def afterColon : List Char → List Char
  | [] => []
  | c :: rest => if c = ':' then rest else afterColon rest

/-- Character of a single decimal digit, as Python's `str` produces it. -/
def pyDigitChar (d : Nat) : Char := Char.ofNat (48 + d)

/-- Numeric value of a decimal digit character, as Python's `int` reads it. -/
def pyDigitVal (c : Char) : Nat := c.toNat - 48

/-- Value of a little-endian list of base-10 digits. -/
def valLE : List Nat → Nat
  | [] => 0
  | d :: ds => d + 10 * valLE ds

/-- Little-endian base-10 digits of `n`, with explicit fuel so that the
recursion is structural (the fuel `n` itself is always enough). -/
def natDigitsAux : Nat → Nat → List Nat
  | _, 0 => []
  | 0, _ + 1 => []
  | fuel + 1, n + 1 => (n + 1) % 10 :: natDigitsAux fuel ((n + 1) / 10)

/-- Model of Python `str(n)` for a non-negative integer: standard decimal
notation, no leading zeros, `"0"` for zero. -/
def pyStrNat (n : Nat) : String :=
  if n = 0 then "0" else ⟨((natDigitsAux n n).map pyDigitChar).reverse⟩

/-- Model of Python `str(p)` / f-string interpolation of an `int`:
a `-` sign followed by the decimal digits when negative. -/
def pyStrInt (p : Int) : String :=
  if p < 0 then "-" ++ pyStrNat p.natAbs else pyStrNat p.natAbs

/-- Model of the digits part of Python `int(s)`: every character must be a
decimal digit and there must be at least one.  (CPython additionally accepts
surrounding whitespace and `_` separators; those inputs do not occur in the
properties below, so accepting strictly fewer strings is faithful for them.) -/
def pyParseDigits (cs : List Char) : Option Nat :=
  if cs = [] then none
  else if cs.all Char.isDigit then some (valLE ((cs.map pyDigitVal).reverse))
  else none

/-- Model of Python `int(s)` on a character list: an optional single sign
followed by decimal digits; `none` models a raised `ValueError`. -/
def pyIntList : List Char → Option Int
  | [] => none
  | c :: rest =>
    if c = '-' then (pyParseDigits rest).map (fun n : Nat => -(n : Int))
    else if c = '+' then (pyParseDigits rest).map (fun n : Nat => (n : Int))
    else (pyParseDigits (c :: rest)).map (fun n : Nat => (n : Int))

/-- Model of Python `int(s)` on `String`. -/
def pyInt (s : String) : Option Int := pyIntList s.data

/-- Model of Python `x or None` for an optional string `x`: an empty string
is falsy and collapses to `none`. -/
def pyTruthyStr : Option String → Option String
  | none => none
  | some s => if s = "" then none else some s

/-! ## Identifier codec (`main.py` lines 57-62 and 222-225) -/

/-- `client_external_id` from `main.py` line 57: `f"tg_user:{peer_id}"`. -/
def client_external_id (peer_id : Int) : String := "tg_user:" ++ pyStrInt peer_id

/-- `message_external_id` from `main.py` line 61: `f"tg_msg:{msg_id}"`. -/
def message_external_id (msg_id : Int) : String := "tg_msg:" ++ pyStrInt msg_id

/-- The outbound relay's decoding of `client.externalId` (`main.py` lines
222-225): the prefix guard `c_ext.startswith("tg_user:")`, then
`int(c_ext.split(":", 1)[1])`.  `none` covers both rejection by the guard
and a `ValueError` from `int`. -/
def decodeContact (s : String) : Option Int :=
  if pyStartsWith "tg_user:".data s.data then pyIntList (afterColon s.data) else none

/-! ## Outbound relay (`main.py` lines 206-267, `POST /pager/outbound`)

The Telegram client and the attachment HTTP fetches are external, so each
attachment record carries an oracle field `outcome` saying what the world
does when the handler processes it, and the environment carries the oracle
for `tg.send_message`.  `none` always models a raised exception.  The
handler returns its HTTP-level result together with the ordered trace of
external actions it performed. -/

/-- What the world does for one attachment once its URL is fetched:
the `httpx` GET / `raise_for_status` fails, or the GET succeeds but
`tg.send_file` raises, or the upload succeeds returning a message object
whose `id` attribute is `sentId?` (`none` models a missing attribute,
as read by `getattr(sent_file, "id", None)`). -/
inductive AttOutcome
  | fetchFail
  | uploadFail
  | uploadOk (sentId? : Option Int)
  deriving DecidableEq, Repr

/-- True when the attachment's upload succeeded. -/
def AttOutcome.isOk : AttOutcome → Bool
  | .uploadOk _ => true
  | _ => false

/-- True when processing got past the fetch, i.e. a temporary file was
written and `tg.send_file` was called. -/
def AttOutcome.writesTemp : AttOutcome → Bool
  | .fetchFail => false
  | _ => true

/-- One entry of `message.attachments` in the outbound payload, together
with its oracle: `url?` is `a.get("payload", {}).get("url")`. -/
structure AttachmentReq where
  url? : Option String
  outcome : AttOutcome
  deriving DecidableEq, Repr

/-- The stripped URL of an attachment: `(((a.get("payload") or {}).get("url")) or "").strip()`. -/
def attUrl (a : AttachmentReq) : String := pyStrip (a.url?.getD "")

/-- The outbound request body, as read by `pager_outbound`: each field is
the result of the corresponding `.get`, with `none` for a missing key or
JSON `null`. -/
structure OutboundPayload where
  event? : Option String
  externalId? : Option String
  text? : Option String
  attachments : List AttachmentReq
  deriving DecidableEq, Repr

/-- Configuration and oracle for one run of `pager_outbound`:
the `x-channel-key` header, the configured `PAGER_KEY`, and what
`tg.send_message(peer_id, text)` would do (`none` = raises; `some i?` =
returns a message whose `id` attribute is `i?`). -/
structure OutboundEnv where
  headerKey? : Option String
  cfgKey : String
  sendTextResult : Option (Option Int)
  deriving DecidableEq, Repr

/-- Externally visible actions of the outbound handler, in order.  The
`Nat` index is the position of the attachment in the request list; it
stands for the unique `pager_<uuid>` temporary file name of lines 247-248. -/
inductive Ev
  | sendText (peer : Int) (text : String)
  | fetch (url : String)
  | writeTemp (idx : Nat)
  | sendFile (peer : Int) (idx : Nat)
  | deleteTemp (idx : Nat)
  deriving DecidableEq, Repr

/-- HTTP-level result of `pager_outbound`.  `uncaught` is an exception that
escapes the handler entirely (FastAPI then returns a 500 response): the only
such point is the `int(...)` call at line 225, which sits before the
`try` block. -/
inductive Resp
  | unauthorized
  | ignored
  | badRequest
  | uncaught
  | serverError
  | ok (externalMessageId : String)
  deriving DecidableEq, Repr

/-- True on the send events (`tg.send_message` / `tg.send_file` calls). -/
def Ev.isSend : Ev → Bool
  | .sendText _ _ => true
  | .sendFile _ _ => true
  | _ => false

/-- The body of the `for a in attachments:` loop (lines 236-260) for the
attachment at position `idx`, given the current `last_sent_id`.  Returns the
updated `last_sent_id` and the actions performed.  A blank URL is skipped
with no action at all (lines 237-239); the inner `try` swallows fetch and
upload failures; the `unlink` is only reached when `send_file` returned. -/
def processAttachment (peer : Int) (idx : Nat) (a : AttachmentReq)
    (last : Option Int) : Option Int × List Ev :=
  if attUrl a = "" then (last, [])
  else
    match a.outcome with
    | .fetchFail => (last, [.fetch (attUrl a)])
    | .uploadFail => (last, [.fetch (attUrl a), .writeTemp idx, .sendFile peer idx])
    | .uploadOk i? =>
        (i?, [.fetch (attUrl a), .writeTemp idx, .sendFile peer idx, .deleteTemp idx])

/-- The whole attachment loop, starting at position `start` with
`last_sent_id = last`. -/
def runAttachments (peer : Int) : List AttachmentReq → Nat → Option Int →
    Option Int × List Ev
  | [], _, last => (last, [])
  | a :: rest, start, last =>
    let step := processAttachment peer start a last
    let tail := runAttachments peer rest (start + 1) step.1
    (tail.1, step.2 ++ tail.2)

/-- The value of `last_sent_id` after the attachment loop, as a pure
function of the list and the initial value. -/
def finalLast : List AttachmentReq → Option Int → Option Int
  | [], last => last
  | a :: rest, last =>
    finalLast rest
      (if attUrl a = "" then last
       else match a.outcome with
            | .uploadOk i? => i?
            | _ => last)

/-- The `f"mtproto:{peer_id}:{last_sent_id or 'noid'}"` interpolation of
line 262: Python's `or` falls through to `'noid'` when `last_sent_id` is
`None` or `0` (both falsy). -/
def sentIdStr : Option Int → String
  | none => "noid"
  | some i => if i = 0 then "noid" else pyStrInt i

/-- The `/pager/outbound` handler (lines 206-267). -/
def pager_outbound (env : OutboundEnv) (p : OutboundPayload) : Resp × List Ev :=
  if env.headerKey? ≠ some env.cfgKey then (.unauthorized, [])
  else if p.event? ≠ some "message.created" then (.ignored, [])
  else
    let c_ext := p.externalId?.getD ""
    let text := pyStrip (p.text?.getD "")
    if c_ext = "" ∨ pyStartsWith "tg_user:".data c_ext.data = false then (.badRequest, [])
    else
      match pyIntList (afterColon c_ext.data) with
      | none => (.uncaught, [])
      | some peer =>
        if text = "" then
          (.ok ("mtproto:" ++ pyStrInt peer ++ ":" ++
              sentIdStr (runAttachments peer p.attachments 0 none).1),
           (runAttachments peer p.attachments 0 none).2)
        else
          match env.sendTextResult with
          | none => (.serverError, [.sendText peer text])
          | some i? =>
            (.ok ("mtproto:" ++ pyStrInt peer ++ ":" ++
                sentIdStr (runAttachments peer p.attachments 0 i?).1),
             .sendText peer text :: (runAttachments peer p.attachments 0 i?).2)

/-- The request passes the key check, the event check and the
`client.externalId` validation, and its id suffix parses to `peer`
(so control reaches the `try` block of line 227 with `peer_id = peer`). -/
def ReachesSend (env : OutboundEnv) (p : OutboundPayload) (peer : Int) : Prop :=
  env.headerKey? = some env.cfgKey ∧
  p.event? = some "message.created" ∧
  p.externalId?.getD "" ≠ "" ∧
  pyStartsWith "tg_user:".data (p.externalId?.getD "").data = true ∧
  pyIntList (afterColon (p.externalId?.getD "").data) = some peer

instance (env : OutboundEnv) (p : OutboundPayload) (peer : Int) :
    Decidable (ReachesSend env p peer) := by
  unfold ReachesSend
  infer_instance

/-- The send events the attachment loop produces, in list order: one
`sendFile` per attachment whose URL is non-blank and whose fetch succeeded. -/
def sendFileList (peer : Int) : List AttachmentReq → Nat → List Ev
  | [], _ => []
  | a :: rest, i =>
    (if attUrl a ≠ "" ∧ a.outcome.writesTemp = true then [Ev.sendFile peer i] else []) ++
      sendFileList peer rest (i + 1)

/-! ## Inbound relay (`main.py` lines 65-101, 104-137, 156-200)

The Telethon event object and the `tg` client calls are external; the
event's attribute reads become structure fields and the client calls
become oracle fields, with `none` again modelling a raised exception. -/

/-- The Telegram sender object (a Telethon `User`), as read by
`on_new_message` and `get_userpic_url`: `id`, `first_name`, `username`
and the truthiness of `photo`.  An empty-string name is kept as
`some ""` so that Python's `or` fall-through can be modelled. -/
structure Sender where
  id : Int
  firstName? : Option String
  username? : Option String
  hasPhoto : Bool
  deriving DecidableEq, Repr

/-- The attribute reads `on_new_message` performs on the Telethon event:
privacy flag, resolved sender (`none` when `get_sender` returned `None`),
the `event.sender_id` fallback, direction flag `out`, `raw_text`,
media truthiness, the media category flags, and the message `id`. -/
structure InboundEvent where
  isPrivate : Bool
  sender? : Option Sender
  eventSenderId : Int
  out : Bool
  rawText? : Option String
  hasMedia : Bool
  hasPhotoMedia : Bool
  hasVideo : Bool
  hasAudio : Bool
  msgId : Int
  deriving DecidableEq, Repr

/-- Oracle for the external calls of the inbound path:
`event.download_media` (lines 89-91) and `tg.download_profile_photo`
(line 125).  The outer `Option` is raise/return, the inner one is the
falsiness check on the returned path; `some (some name)` carries the
basename of the stored file. -/
structure InboundWorld where
  downloadMediaResult : Option (Option String)
  downloadProfilePhotoResult : Option (Option String)
  deriving DecidableEq, Repr

/-- One Pager attachment descriptor `{type, payload: {url}}`. -/
structure PagerAttachment where
  type : String
  url : String
  deriving DecidableEq, Repr

/-- The canonical webhook payload built at lines 178-195.  `clientName?`
and `clientImageUrl?` are `none` when the corresponding key is omitted
(the `if name:` / `if image_url:` guards). -/
structure PagerPayload where
  event : String
  clientExternalId : String
  clientName? : Option String
  clientImageUrl? : Option String
  messageExternalId : String
  direction : String
  text : String
  attachments : List PagerAttachment
  deriving DecidableEq, Repr

/-- `pager_attachment_type_from_telethon_event` (lines 65-74). -/
def pager_attachment_type_from_telethon_event (ev : InboundEvent) : String :=
  if ev.hasPhotoMedia then "image"
  else if ev.hasVideo then "video"
  else if ev.hasAudio then "audio"
  else "file"

/-- The in-memory avatar cache `AVATAR_CACHE : dict[int, Optional[str]]`,
as an association list where insertion shadows older entries. -/
def AvatarCache := List (Int × Option String)

/-- Dictionary membership/read: `user_id in AVATAR_CACHE` plus
`AVATAR_CACHE[user_id]` combined. -/
def cacheLookup : List (Int × Option String) → Int → Option (Option String)
  | [], _ => none
  | (k, v) :: rest, i => if k = i then some v else cacheLookup rest i

/-- Dictionary assignment `AVATAR_CACHE[user_id] = v`. -/
def cacheInsert (c : List (Int × Option String)) (i : Int) (v : Option String) :
    List (Int × Option String) := (i, v) :: c

/-- `save_telegram_media_and_get_attachments` (lines 77-101): no media →
`[]`; a raised `download_media` is caught and yields `[]`; a falsy path
yields `[]`; otherwise one attachment whose URL joins `PUBLIC_BASE_URL`
with the stored file's name. -/
def save_telegram_media_and_get_attachments (base : String) (w : InboundWorld)
    (ev : InboundEvent) : List PagerAttachment :=
  if ev.hasMedia = false then []
  else
    let att_type := pager_attachment_type_from_telethon_event ev
    match w.downloadMediaResult with
    | none => []
    | some none => []
    | some (some fname) =>
      [{ type := if att_type = "image" ∨ att_type = "video" ∨ att_type = "audio" ∨
            att_type = "document" ∨ att_type = "file" then att_type else "file",
         url := base ++ "/files/" ++ fname }]

/-- `get_userpic_url` (lines 104-137).  Returns the resolved URL, the
updated cache, and the number of photo-existence checks
(`getattr(sender, "photo", None)`, line 120) performed — 0 or 1.
The surrounding `try` turns any raise of `download_profile_photo` into a
`None` result with the cache unchanged; `if not user_id` makes a zero id
falsy. -/
def get_userpic_url (base : String) (w : InboundWorld) (sender? : Option Sender)
    (cache : AvatarCache) : Option String × AvatarCache × Nat :=
  match sender? with
  | none => (none, cache, 0)
  | some s =>
    if s.id = 0 then (none, cache, 0)
    else
      match cacheLookup cache s.id with
      | some v => (v, cache, 0)
      | none =>
        if s.hasPhoto = false then (none, cacheInsert cache s.id none, 1)
        else
          match w.downloadProfilePhotoResult with
          | none => (none, cache, 1)
          | some none => (none, cacheInsert cache s.id none, 1)
          | some (some fname) =>
            (some (base ++ "/avatars/" ++ fname),
             cacheInsert cache s.id (some (base ++ "/avatars/" ++ fname)), 1)

/-- `on_new_message` (lines 156-200): drop non-private events, enrich
(sender, direction, text, attachments, avatar, name), build the payload
and dispatch it.  `none` in the first component means no dispatch was
attempted; the outer `try/except` of lines 158/199 means the handler
never lets an exception escape, which the embedding reflects by being a
total function. -/
def on_new_message (base : String) (w : InboundWorld) (ev : InboundEvent)
    (cache : AvatarCache) : Option PagerPayload × AvatarCache :=
  if ev.isPrivate = false then (none, cache)
  else
    let peer := match ev.sender? with
      | some s => s.id
      | none => ev.eventSenderId
    let direction := if ev.out then "outgoing" else "incoming"
    let text := ev.rawText?.getD ""
    let attachments := save_telegram_media_and_get_attachments base w ev
    let avatar := get_userpic_url base w ev.sender? cache
    let name? := match ev.sender? with
      | some s =>
        (match pyTruthyStr s.firstName? with
         | some nm => some nm
         | none => pyTruthyStr s.username?)
      | none => none
    (some { event := "message.created",
            clientExternalId := client_external_id peer,
            clientName? := name?,
            clientImageUrl? := pyTruthyStr avatar.1,
            messageExternalId := message_external_id ev.msgId,
            direction := direction,
            text := text,
            attachments := attachments },
     avatar.2.1)

/-! ## Concrete inputs used by the witnesses of the inbound claims -/

/-- An inbound world whose `download_media` raises. -/
def c6World : InboundWorld :=
  { downloadMediaResult := none, downloadProfilePhotoResult := some (some "a.jpg") }

/-- A private inbound photo message carrying the text `"hello"`. -/
def c6Event : InboundEvent :=
  { isPrivate := true,
    sender? := some { id := 7, firstName? := some "Ann", username? := none,
                      hasPhoto := false },
    eventSenderId := 7, out := false, rawText? := some "hello",
    hasMedia := true, hasPhotoMedia := true, hasVideo := false,
    hasAudio := false, msgId := 11 }

/-- An inbound world whose `download_profile_photo` raises. -/
def c7World : InboundWorld :=
  { downloadMediaResult := some none, downloadProfilePhotoResult := none }

/-- A sender without a profile photo. -/
def c7Sender : Sender :=
  { id := 7, firstName? := some "Ann", username? := none, hasPhoto := false }


/-! ## Round-trip lemmas for the codec -/

theorem valLE_natDigitsAux (fuel : Nat) :
    ∀ n : Nat, n ≤ fuel → valLE (natDigitsAux fuel n) = n := by
  induction fuel with
  | zero =>
    intro n hn
    have : n = 0 := Nat.le_zero.mp hn
    subst this
    rfl
  | succ f ih =>
    intro n hn
    match n with
    | 0 => rfl
    | m + 1 =>
      have hlt : (m + 1) / 10 < m + 1 := Nat.div_lt_self (Nat.succ_pos m) (by norm_num)
      have hdiv : (m + 1) / 10 ≤ f := by omega
      simp only [natDigitsAux, valLE, ih _ hdiv]
      omega

theorem natDigitsAux_lt (fuel : Nat) :
    ∀ n : Nat, ∀ d ∈ natDigitsAux fuel n, d < 10 := by
  induction fuel with
  | zero =>
    intro n d hd
    cases n <;> simp [natDigitsAux] at hd
  | succ f ih =>
    intro n d hd
    cases n with
    | zero => simp [natDigitsAux] at hd
    | succ m =>
      simp only [natDigitsAux, List.mem_cons] at hd
      rcases hd with h | h
      · omega
      · exact ih _ d h

theorem natDigitsAux_ne_nil (f m : Nat) : natDigitsAux (f + 1) (m + 1) ≠ [] := by
  simp [natDigitsAux]

theorem pyDigitChar_spec : ∀ d, d < 10 →
    ((pyDigitChar d).isDigit = true ∧ pyDigitVal (pyDigitChar d) = d) := by decide

theorem pyStrNat_data_all_digit (n : Nat) :
    ∀ c ∈ (pyStrNat n).data, c.isDigit = true := by
  by_cases h : n = 0
  · subst h; decide
  · intro c hc
    unfold pyStrNat at hc
    rw [if_neg h] at hc
    simp only [List.mem_reverse, List.mem_map] at hc
    obtain ⟨d, hd, rfl⟩ := hc
    exact (pyDigitChar_spec d (natDigitsAux_lt n n d hd)).1

theorem pyStrNat_data_ne_nil (n : Nat) : (pyStrNat n).data ≠ [] := by
  by_cases h : n = 0
  · subst h; decide
  · unfold pyStrNat
    rw [if_neg h]
    obtain ⟨m, rfl⟩ : ∃ m, n = m + 1 := ⟨n - 1, by omega⟩
    simp only [ne_eq, List.reverse_eq_nil_iff, List.map_eq_nil_iff]
    exact natDigitsAux_ne_nil m m

theorem pyParseDigits_pyStrNat (n : Nat) :
    pyParseDigits (pyStrNat n).data = some n := by
  by_cases h : n = 0
  · subst h; decide
  · unfold pyParseDigits
    rw [if_neg (pyStrNat_data_ne_nil n)]
    rw [if_pos (List.all_eq_true.mpr (pyStrNat_data_all_digit n))]
    congr 1
    unfold pyStrNat
    rw [if_neg h]
    show valLE ((((natDigitsAux n n).map pyDigitChar).reverse.map pyDigitVal).reverse) = n
    rw [← List.map_reverse, List.reverse_reverse, List.map_map]
    have hmap : (natDigitsAux n n).map (pyDigitVal ∘ pyDigitChar) = natDigitsAux n n := by
      have := List.map_congr_left (l := natDigitsAux n n)
        (f := pyDigitVal ∘ pyDigitChar) (g := id)
        (fun d hd => (pyDigitChar_spec d (natDigitsAux_lt n n d hd)).2)
      simpa using this
    rw [hmap]
    exact valLE_natDigitsAux n n le_rfl

theorem pyIntList_pyStrNat (n : Nat) : pyIntList (pyStrNat n).data = some (n : Int) := by
  cases hcs : (pyStrNat n).data with
  | nil => exact absurd hcs (pyStrNat_data_ne_nil n)
  | cons c rest =>
    have hcd : c.isDigit = true :=
      pyStrNat_data_all_digit n c (by rw [hcs]; exact List.mem_cons_self c rest)
    have hc1 : ¬ c = '-' := fun he => by rw [he] at hcd; exact absurd hcd (by decide)
    have hc2 : ¬ c = '+' := fun he => by rw [he] at hcd; exact absurd hcd (by decide)
    show pyIntList (c :: rest) = some (n : Int)
    simp only [pyIntList]
    rw [if_neg hc1, if_neg hc2, ← hcs, pyParseDigits_pyStrNat n]
    rfl

theorem pyInt_pyStrInt (p : Int) : pyInt (pyStrInt p) = some p := by
  unfold pyInt pyStrInt
  by_cases hp : p < 0
  · rw [if_pos hp]
    have hdata : ("-" ++ pyStrNat p.natAbs).data = '-' :: (pyStrNat p.natAbs).data := by
      have : ("-" ++ pyStrNat p.natAbs).data = "-".data ++ (pyStrNat p.natAbs).data := rfl
      rw [this]; rfl
    rw [hdata]
    show pyIntList ('-' :: (pyStrNat p.natAbs).data) = some p
    simp only [pyIntList]
    rw [if_pos trivial, pyParseDigits_pyStrNat]
    show some (-(p.natAbs : Int)) = some p
    congr 1
    omega
  · rw [if_neg hp]
    rw [pyIntList_pyStrNat]
    congr 1
    omega

theorem pyStartsWith_append (pre rest : List Char) :
    pyStartsWith pre (pre ++ rest) = true := by
  induction pre with
  | nil => rfl
  | cons p ps ih => simp [pyStartsWith, ih]

theorem afterColon_tg_user (rest : List Char) :
    afterColon ("tg_user:".data ++ rest) = rest := by
  show afterColon ('t' :: 'g' :: '_' :: 'u' :: 's' :: 'e' :: 'r' :: ':' :: rest) = rest
  simp [afterColon]

/-- Claim C1: for every valid 64-bit signed integer peer id `P`, decoding the
contact tag produced by encoding `P` yields `P` again:
`decodeContact (client_external_id P) = some P`. -/
theorem contact_codec_roundtrip (p : Int)
    (h : -9223372036854775808 ≤ p ∧ p ≤ 9223372036854775807) :
    decodeContact (client_external_id p) = some p := by
  clear h
  unfold decodeContact client_external_id
  have hdata : ("tg_user:" ++ pyStrInt p).data = "tg_user:".data ++ (pyStrInt p).data := rfl
  rw [hdata, if_pos (pyStartsWith_append _ _), afterColon_tg_user]
  exact pyInt_pyStrInt p

/-- Witness for C1 at the extreme negative 64-bit peer id. -/
theorem contact_codec_roundtrip_witness :
    decodeContact (client_external_id (-9223372036854775808)) =
      some (-9223372036854775808) :=
  contact_codec_roundtrip (-9223372036854775808) (by decide)


theorem pager_outbound_reaches (env : OutboundEnv) (p : OutboundPayload)
    (peer : Int) (h : ReachesSend env p peer) :
    pager_outbound env p =
      (if pyStrip (p.text?.getD "") = "" then
        (Resp.ok ("mtproto:" ++ pyStrInt peer ++ ":" ++
            sentIdStr (runAttachments peer p.attachments 0 none).1),
         (runAttachments peer p.attachments 0 none).2)
      else
        match env.sendTextResult with
        | none => (.serverError, [.sendText peer (pyStrip (p.text?.getD ""))])
        | some i? =>
          (Resp.ok ("mtproto:" ++ pyStrInt peer ++ ":" ++
              sentIdStr (runAttachments peer p.attachments 0 i?).1),
           .sendText peer (pyStrip (p.text?.getD "")) ::
             (runAttachments peer p.attachments 0 i?).2)) := by
  obtain ⟨h1, h2, h3, h4, h5⟩ := h
  unfold pager_outbound
  rw [if_neg (by simp [h1]), if_neg (by simp [h2]),
    if_neg (by rw [h4]; simp [h3]), h5]

/-! ## Characterizations of the attachment loop -/


theorem runAttachments_fst (peer : Int) :
    ∀ (as : List AttachmentReq) (start : Nat) (last : Option Int),
      (runAttachments peer as start last).1 = finalLast as last := by
  intro as
  induction as with
  | nil => intro start last; rfl
  | cons a rest ih =>
    intro start last
    simp only [runAttachments, finalLast]
    rw [ih]
    congr 1
    unfold processAttachment
    by_cases h : attUrl a = ""
    · simp [h]
    · cases ho : a.outcome <;> simp [h, ho]

theorem mem_runAttachments_iff (peer : Int) (mk : Nat → Ev) (Q : AttachmentReq → Prop)
    (hstep : ∀ (idx : Nat) (a : AttachmentReq) (last : Option Int) (k : Nat),
      (mk k ∈ (processAttachment peer idx a last).2 ↔ (k = idx ∧ Q a))) :
    ∀ (as : List AttachmentReq) (start : Nat) (last : Option Int) (k : Nat),
      (mk k ∈ (runAttachments peer as start last).2 ↔
        (start ≤ k ∧ ∃ a, as[k - start]? = some a ∧ Q a)) := by
  intro as
  induction as with
  | nil =>
    intro start last k
    simp [runAttachments]
  | cons a rest ih =>
    intro start last k
    simp only [runAttachments, List.mem_append]
    rw [hstep start a last k, ih (start + 1) _ k]
    constructor
    · rintro (⟨rfl, hq⟩ | ⟨hle, b, hb, hq⟩)
      · exact ⟨le_rfl, a, by simp, hq⟩
      · refine ⟨by omega, b, ?_, hq⟩
        have hks : k - start = (k - (start + 1)) + 1 := by omega
        rw [hks]
        simpa using hb
    · rintro ⟨hle, b, hb, hq⟩
      by_cases hk : k = start
      · subst hk
        simp only [Nat.sub_self, List.getElem?_cons_zero, Option.some.injEq] at hb
        exact Or.inl ⟨rfl, hb ▸ hq⟩
      · right
        refine ⟨by omega, b, ?_, hq⟩
        have hks : k - start = (k - (start + 1)) + 1 := by omega
        rw [hks] at hb
        simpa using hb

theorem step_deleteTemp (peer : Int) (idx : Nat) (a : AttachmentReq)
    (last : Option Int) (k : Nat) :
    (Ev.deleteTemp k ∈ (processAttachment peer idx a last).2 ↔
      (k = idx ∧ (attUrl a ≠ "" ∧ a.outcome.isOk = true))) := by
  unfold processAttachment
  by_cases h : attUrl a = ""
  · simp [h]
  · cases ho : a.outcome <;> simp [h, ho, AttOutcome.isOk]

theorem step_writeTemp (peer : Int) (idx : Nat) (a : AttachmentReq)
    (last : Option Int) (k : Nat) :
    (Ev.writeTemp k ∈ (processAttachment peer idx a last).2 ↔
      (k = idx ∧ (attUrl a ≠ "" ∧ a.outcome.writesTemp = true))) := by
  unfold processAttachment
  by_cases h : attUrl a = ""
  · simp [h]
  · cases ho : a.outcome <;> simp [h, ho, AttOutcome.writesTemp]

theorem step_sendFile (peer : Int) (idx : Nat) (a : AttachmentReq)
    (last : Option Int) (k : Nat) :
    (Ev.sendFile peer k ∈ (processAttachment peer idx a last).2 ↔
      (k = idx ∧ (attUrl a ≠ "" ∧ a.outcome.writesTemp = true))) := by
  unfold processAttachment
  by_cases h : attUrl a = ""
  · simp [h]
  · cases ho : a.outcome <;> simp [h, ho, AttOutcome.writesTemp]

theorem step_sendText_not_mem (peer : Int) (idx : Nat) (a : AttachmentReq)
    (last : Option Int) (q : Int) (t : String) :
    Ev.sendText q t ∉ (processAttachment peer idx a last).2 := by
  unfold processAttachment
  by_cases h : attUrl a = ""
  · simp [h]
  · cases ho : a.outcome <;> simp [h, ho]

theorem sendText_not_mem_runAttachments (peer : Int) :
    ∀ (as : List AttachmentReq) (start : Nat) (last : Option Int) (q : Int) (t : String),
      Ev.sendText q t ∉ (runAttachments peer as start last).2 := by
  intro as
  induction as with
  | nil => intro start last q t h; simp [runAttachments] at h
  | cons a rest ih =>
    intro start last q t h
    simp only [runAttachments, List.mem_append] at h
    rcases h with h | h
    · exact step_sendText_not_mem peer start a _ q t h
    · exact ih _ _ q t h

theorem filter_isSend_runAttachments (peer : Int) :
    ∀ (as : List AttachmentReq) (start : Nat) (last : Option Int),
      ((runAttachments peer as start last).2.filter Ev.isSend) = sendFileList peer as start := by
  intro as
  induction as with
  | nil => intro start last; rfl
  | cons a rest ih =>
    intro start last
    simp only [runAttachments, List.filter_append, sendFileList]
    rw [ih]
    congr 1
    unfold processAttachment
    by_cases h : attUrl a = ""
    · simp [h]
    · cases ho : a.outcome <;>
        simp [h, ho, Ev.isSend, AttOutcome.writesTemp, List.filter]

theorem finalLast_of_no_ok :
    ∀ (as : List AttachmentReq) (last : Option Int),
      (∀ a ∈ as, a.outcome.isOk = false) → finalLast as last = last := by
  intro as
  induction as with
  | nil => intro last _; rfl
  | cons a rest ih =>
    intro last hall
    simp only [finalLast]
    have ha : a.outcome.isOk = false := hall a (List.mem_cons_self a rest)
    have hstep : (if attUrl a = "" then last
        else match a.outcome with
             | .uploadOk i? => i?
             | _ => last) = last := by
      by_cases h : attUrl a = ""
      · simp [h]
      · cases ho : a.outcome <;> simp [h]
        · rw [ho] at ha; exact absurd ha (by simp [AttOutcome.isOk])
    rw [hstep]
    exact ih last (fun b hb => hall b (List.mem_cons_of_mem a hb))


/-! ## Claims about the outbound relay -/

/-- Claim C2: the claim says a `client.externalId` whose suffix is not a
valid integer yields HTTP 400, never a 500.  In the code the call
`int(c_ext.split(":", 1)[1])` (line 225) sits before the `try` block and
outside any guard, so for `"tg_user:abc"` a `ValueError` escapes the
handler and FastAPI answers 500: the run ends in `Resp.uncaught`, not
`Resp.badRequest`.  (The missing-id and wrong-prefix cases do return 400,
as the accompanying conjuncts show.) -/
theorem external_id_nonint_suffix_escapes :
    (pager_outbound
        { headerKey? := some "k", cfgKey := "k", sendTextResult := some (some 1) }
        { event? := some "message.created", externalId? := some "tg_user:abc",
          text? := some "hello", attachments := [] }).1 = Resp.uncaught ∧
      (pager_outbound
        { headerKey? := some "k", cfgKey := "k", sendTextResult := some (some 1) }
        { event? := some "message.created", externalId? := none,
          text? := some "hello", attachments := [] }).1 = Resp.badRequest ∧
      (pager_outbound
        { headerKey? := some "k", cfgKey := "k", sendTextResult := some (some 1) }
        { event? := some "message.created", externalId? := some "user:5",
          text? := some "hello", attachments := [] }).1 = Resp.badRequest := by
  decide

/-- Claim C3 (counterexample): an attachment whose fetch succeeds but whose
upload raises leaves its temporary file behind — the `unlink` of line 255
is only reached on the success path, so the cleanup is not performed
"regardless of whether the upload succeeds or fails". -/
theorem temp_file_leak_on_upload_failure :
    Ev.writeTemp 0 ∈ (pager_outbound
        { headerKey? := some "k", cfgKey := "k", sendTextResult := some (some 7) }
        { event? := some "message.created", externalId? := some "tg_user:5",
          text? := none,
          attachments := [{ url? := some "http://x/a", outcome := .uploadFail }] }).2 ∧
      Ev.deleteTemp 0 ∉ (pager_outbound
        { headerKey? := some "k", cfgKey := "k", sendTextResult := some (some 7) }
        { event? := some "message.created", externalId? := some "tg_user:5",
          text? := none,
          attachments := [{ url? := some "http://x/a", outcome := .uploadFail }] }).2 := by
  decide

/-- Claim C3 (amended): in every run of the outbound handler, the temporary
file of attachment `k` is deleted exactly when it was written AND the
upload of attachment `k` succeeded; when `tg.send_file` raises, the file
persists. -/
theorem temp_cleanup_iff_upload_ok (env : OutboundEnv) (p : OutboundPayload) (k : Nat) :
    Ev.deleteTemp k ∈ (pager_outbound env p).2 ↔
      (Ev.writeTemp k ∈ (pager_outbound env p).2 ∧
        ∃ a, p.attachments[k]? = some a ∧ a.outcome.isOk = true) := by
  have hok_writes : ∀ o : AttOutcome, o.isOk = true → o.writesTemp = true := by
    intro o ho; cases o <;> simp_all [AttOutcome.isOk, AttOutcome.writesTemp]
  simp only [pager_outbound]
  split
  · simp
  split
  · simp
  split
  · simp
  split
  · simp
  rename_i peer hpeer
  have main : ∀ init : Option Int,
      (Ev.deleteTemp k ∈ (runAttachments peer p.attachments 0 init).2 ↔
        (Ev.writeTemp k ∈ (runAttachments peer p.attachments 0 init).2 ∧
          ∃ a, p.attachments[k]? = some a ∧ a.outcome.isOk = true)) := by
    intro init
    rw [mem_runAttachments_iff peer Ev.deleteTemp
        (fun a => attUrl a ≠ "" ∧ a.outcome.isOk = true)
        (step_deleteTemp peer) p.attachments 0 init k,
      mem_runAttachments_iff peer Ev.writeTemp
        (fun a => attUrl a ≠ "" ∧ a.outcome.writesTemp = true)
        (step_writeTemp peer) p.attachments 0 init k]
    simp only [Nat.zero_le, Nat.sub_zero, true_and]
    constructor
    · rintro ⟨a, ha, hurl, hok⟩
      exact ⟨⟨a, ha, hurl, hok_writes _ hok⟩, a, ha, hok⟩
    · rintro ⟨⟨a, ha, hurl, _⟩, b, hb, hok⟩
      rw [ha] at hb
      cases hb
      exact ⟨a, ha, hurl, hok⟩
  split
  · exact main none
  · split
    · simp
    · simpa using main _

/-- Claim C4: for every outbound run that returns successfully, the sent
messages are exactly the (stripped) text first — when non-empty — followed
by one file send per fetched attachment, in the order the attachments were
supplied. -/
theorem outbound_send_order (env : OutboundEnv) (p : OutboundPayload)
    (peer : Int) (s : String)
    (h1 : ReachesSend env p peer)
    (h2 : (pager_outbound env p).1 = Resp.ok s) :
    (pager_outbound env p).2.filter Ev.isSend =
      (if pyStrip (p.text?.getD "") = "" then []
       else [Ev.sendText peer (pyStrip (p.text?.getD ""))]) ++
        sendFileList peer p.attachments 0 := by
  rw [pager_outbound_reaches env p peer h1] at h2 ⊢
  by_cases ht : pyStrip (p.text?.getD "") = ""
  · rw [if_pos ht, if_pos ht]
    simp only [List.nil_append]
    exact filter_isSend_runAttachments peer p.attachments 0 none
  · rw [if_neg ht] at h2
    rw [if_neg ht, if_neg ht]
    cases hst : env.sendTextResult with
    | none => rw [hst] at h2; simp at h2
    | some i? =>
      show (Ev.sendText peer (pyStrip (p.text?.getD "")) ::
          (runAttachments peer p.attachments 0 i?).2).filter Ev.isSend = _
      rw [List.filter_cons_of_pos (by rfl)]
      rw [filter_isSend_runAttachments peer p.attachments 0 i?]
      rfl

/-- Witness for C4: text plus two attachments, the first of which fails to
fetch; the text send comes first and the surviving file send keeps its
supplied position. -/
theorem outbound_send_order_witness :
    (pager_outbound
        { headerKey? := some "k", cfgKey := "k", sendTextResult := some (some 3) }
        { event? := some "message.created", externalId? := some "tg_user:5",
          text? := some " hi ",
          attachments := [{ url? := some "http://x/a", outcome := .fetchFail },
                          { url? := some "http://x/b", outcome := .uploadOk (some 9) }] }).2.filter
        Ev.isSend =
      [Ev.sendText 5 "hi", Ev.sendFile 5 1] :=
  outbound_send_order
    { headerKey? := some "k", cfgKey := "k", sendTextResult := some (some 3) }
    { event? := some "message.created", externalId? := some "tg_user:5",
      text? := some " hi ",
      attachments := [{ url? := some "http://x/a", outcome := .fetchFail },
                      { url? := some "http://x/b", outcome := .uploadOk (some 9) }] }
    5 "mtproto:5:9" (by decide) (by decide)

/-- Claim C5: once the request is validated and the text message is sent,
(1) the call returns 200 with the id built from the final `last_sent_id`
no matter what the attachment outcomes are — an attachment failure never
fails the overall call; (2) every non-blank attachment whose fetch
succeeds gets its `send_file` call, independently of the other
attachments' failures; (3) when every attachment fails, `last_sent_id`
stays the text message's id, so the response still reflects the sent text. -/
theorem attachment_failure_isolation (env : OutboundEnv) (p : OutboundPayload)
    (peer : Int) (tid : Int)
    (h1 : ReachesSend env p peer)
    (h2 : pyStrip (p.text?.getD "") ≠ "")
    (h3 : env.sendTextResult = some (some tid)) :
    (pager_outbound env p).1 =
        Resp.ok ("mtproto:" ++ pyStrInt peer ++ ":" ++
          sentIdStr (finalLast p.attachments (some tid))) ∧
      (∀ (k : Nat) (a : AttachmentReq), p.attachments[k]? = some a →
        attUrl a ≠ "" → a.outcome.writesTemp = true →
        Ev.sendFile peer k ∈ (pager_outbound env p).2) ∧
      ((∀ a ∈ p.attachments, a.outcome.isOk = false) →
        finalLast p.attachments (some tid) = some tid) := by
  rw [pager_outbound_reaches env p peer h1, if_neg h2, h3]
  refine ⟨?_, ?_, finalLast_of_no_ok p.attachments (some tid)⟩
  · simp only [runAttachments_fst]
  · intro k a ha hurl hw
    simp only [List.mem_cons]
    right
    rw [mem_runAttachments_iff peer (Ev.sendFile peer)
      (fun a => attUrl a ≠ "" ∧ a.outcome.writesTemp = true)
      (step_sendFile peer) p.attachments 0 (some tid) k]
    exact ⟨Nat.zero_le k, a, by simpa using ha, hurl, hw⟩

/-- Witness for C5 (the spec's Scenario 6): text `"hi"` is sent with id 7,
the only attachment's URL 404s; the attachment is skipped and the response
carries the text message's id. -/
theorem attachment_failure_isolation_witness :
    (pager_outbound
        { headerKey? := some "k", cfgKey := "k", sendTextResult := some (some 7) }
        { event? := some "message.created", externalId? := some "tg_user:5",
          text? := some "hi",
          attachments := [{ url? := some "http://x/broken", outcome := .fetchFail }] }).1 =
      Resp.ok "mtproto:5:7" :=
  (attachment_failure_isolation
    { headerKey? := some "k", cfgKey := "k", sendTextResult := some (some 7) }
    { event? := some "message.created", externalId? := some "tg_user:5",
      text? := some "hi",
      attachments := [{ url? := some "http://x/broken", outcome := .fetchFail }] }
    5 7 (by decide) (by decide) rfl).1

/-- Claim C8 (counterexample): the claim says `"noid"` appears only when
nothing was sent.  But line 262 computes `last_sent_id or 'noid'` with
Python truthiness, so a run whose text send succeeds with a message id of
`0` (a falsy but present id) answers `mtproto:5:noid` even though the
trace shows the text was sent. -/
theorem external_message_id_zero_id_noid :
    pager_outbound
        { headerKey? := some "k", cfgKey := "k", sendTextResult := some (some 0) }
        { event? := some "message.created", externalId? := some "tg_user:5",
          text? := some "hi", attachments := [] } =
      (Resp.ok "mtproto:5:noid", [Ev.sendText 5 "hi"]) := by
  decide

/-- Claim C8 (amended): every successful `message.created` outbound call
returns `mtproto:<peerId>:<t>` where `t` is the decimal form of the final
`last_sent_id` when that id is present and non-zero, and the sentinel
`"noid"` when the final `last_sent_id` is `None` (nothing sent, or the
last sent message object had no id) or `0` (Python falsiness) — as
computed by `sentIdStr ∘ finalLast`. -/
theorem external_message_id_format (env : OutboundEnv) (p : OutboundPayload)
    (s : String) (tr : List Ev) (peer : Int) (i? : Option Int)
    (hrun : pager_outbound env p = (Resp.ok s, tr))
    (hdec : pyIntList (afterColon (p.externalId?.getD "").data) = some peer)
    (hst : env.sendTextResult = some i?) :
    s = "mtproto:" ++ pyStrInt peer ++ ":" ++
      sentIdStr (finalLast p.attachments
        (if pyStrip (p.text?.getD "") = "" then none else i?)) := by
  have h1 : env.headerKey? = some env.cfgKey := by
    by_contra h
    have hx : pager_outbound env p = (.unauthorized, []) := by
      simp only [pager_outbound]; rw [if_pos h]
    rw [hx] at hrun
    exact absurd (congrArg Prod.fst hrun) (by simp)
  have h2 : p.event? = some "message.created" := by
    by_contra h
    have hx : pager_outbound env p = (.ignored, []) := by
      simp only [pager_outbound]; rw [if_neg (not_not_intro h1), if_pos h]
    rw [hx] at hrun
    exact absurd (congrArg Prod.fst hrun) (by simp)
  have h3 : ¬(p.externalId?.getD "" = "" ∨
      pyStartsWith "tg_user:".data (p.externalId?.getD "").data = false) := by
    intro h
    have hx : pager_outbound env p = (.badRequest, []) := by
      simp only [pager_outbound]
      rw [if_neg (not_not_intro h1), if_neg (not_not_intro h2), if_pos h]
    rw [hx] at hrun
    exact absurd (congrArg Prod.fst hrun) (by simp)
  obtain ⟨hA, hB⟩ := not_or.mp h3
  have hreach : ReachesSend env p peer := ⟨h1, h2, hA, by simpa using hB, hdec⟩
  rw [pager_outbound_reaches env p peer hreach] at hrun
  by_cases ht : pyStrip (p.text?.getD "") = ""
  · rw [if_pos ht] at hrun
    rw [if_pos ht]
    have := (Prod.mk.injEq _ _ _ _).mp hrun
    have hs := this.1
    simp only [Resp.ok.injEq] at hs
    rw [← hs, runAttachments_fst]
  · rw [if_neg ht, hst] at hrun
    rw [if_neg ht]
    have := (Prod.mk.injEq _ _ _ _).mp hrun
    have hs := this.1
    simp only [Resp.ok.injEq] at hs
    rw [← hs, runAttachments_fst]

/-- Witness for the amended C8: a successful run whose text send returned
id 7 and with no attachments answers `mtproto:5:7`. -/
theorem external_message_id_format_witness :
    ("mtproto:5:7" : String) =
      "mtproto:" ++ pyStrInt 5 ++ ":" ++ sentIdStr (finalLast [] (some 7)) :=
  external_message_id_format
    { headerKey? := some "k", cfgKey := "k", sendTextResult := some (some 7) }
    { event? := some "message.created", externalId? := some "tg_user:5",
      text? := some "hi", attachments := [] }
    "mtproto:5:7" [Ev.sendText 5 "hi"] 5 (some 7) (by decide) (by decide) rfl

/-- Claim C9: an attachment whose (stripped) payload URL is blank is
skipped before any activity: the loop body performs no action and leaves
`last_sent_id` unchanged, the containing loop behaves as if the entry
were absent, and the final `last_sent_id` (hence the returned
`externalMessageId`) is unaffected. -/
theorem blank_url_attachment_skipped (peer : Int) (idx : Nat) (a : AttachmentReq)
    (rest : List AttachmentReq) (start : Nat) (last : Option Int)
    (h : attUrl a = "") :
    processAttachment peer idx a last = (last, []) ∧
      runAttachments peer (a :: rest) start last = runAttachments peer rest (start + 1) last ∧
      finalLast (a :: rest) last = finalLast rest last := by
  have hp : processAttachment peer idx a last = (last, []) := by
    unfold processAttachment; rw [if_pos h]
  have hp0 : processAttachment peer start a last = (last, []) := by
    unfold processAttachment; rw [if_pos h]
  refine ⟨hp, ?_, ?_⟩
  · simp only [runAttachments]
    rw [hp0]
    simp
  · simp only [finalLast]
    rw [if_pos h]

/-- Witness for C9 at a whitespace-only URL. -/
theorem blank_url_attachment_skipped_witness :
    processAttachment 5 0 { url? := some "   ", outcome := .uploadOk (some 3) } none =
        (none, []) ∧
      runAttachments 5 [{ url? := some "   ", outcome := .uploadOk (some 3) }] 0 none =
        runAttachments 5 [] 1 none ∧
      finalLast [{ url? := some "   ", outcome := .uploadOk (some 3) }] none =
        finalLast [] none :=
  blank_url_attachment_skipped 5 0 _ [] 0 none (by decide)

/-- Claim C10: the outbound text is whitespace-stripped before use.  When
the stripped text is empty, no text message is ever sent, and with no
attachments the call answers the `"noid"` sentinel; when it is non-empty,
the first action of the run is sending exactly the stripped text to the
peer. -/
theorem outbound_text_stripping (env : OutboundEnv) (p : OutboundPayload) (peer : Int)
    (h1 : ReachesSend env p peer) :
    (pyStrip (p.text?.getD "") = "" →
      (∀ (q : Int) (t : String), Ev.sendText q t ∉ (pager_outbound env p).2) ∧
        (p.attachments = [] →
          pager_outbound env p =
            (Resp.ok ("mtproto:" ++ pyStrInt peer ++ ":" ++ "noid"), []))) ∧
      (∀ i? : Option Int, pyStrip (p.text?.getD "") ≠ "" → env.sendTextResult = some i? →
        (pager_outbound env p).2.head? =
          some (Ev.sendText peer (pyStrip (p.text?.getD "")))) := by
  constructor
  · intro ht
    constructor
    · intro q t hmem
      rw [pager_outbound_reaches env p peer h1, if_pos ht] at hmem
      exact sendText_not_mem_runAttachments peer p.attachments 0 none q t hmem
    · intro hatt
      rw [pager_outbound_reaches env p peer h1, if_pos ht, hatt]
      rfl
  · intro i? ht hst
    rw [pager_outbound_reaches env p peer h1, if_neg ht, hst]
    rfl

/-- Witness for C10: a whitespace-only text with no attachments is treated
as absent and the response carries the sentinel. -/
theorem outbound_text_stripping_witness :
    pager_outbound
        { headerKey? := some "k", cfgKey := "k", sendTextResult := some (some 9) }
        { event? := some "message.created", externalId? := some "tg_user:5",
          text? := some "   ", attachments := [] } =
      (Resp.ok "mtproto:5:noid", []) :=
  ((outbound_text_stripping
      { headerKey? := some "k", cfgKey := "k", sendTextResult := some (some 9) }
      { event? := some "message.created", externalId? := some "tg_user:5",
        text? := some "   ", attachments := [] }
      5 (by decide)).1 (by decide)).2 rfl

/-! ## Claims about the inbound relay -/

/-- Claim C6: for every inbound private event whose media download fails
(either `download_media` raises, or it returns a falsy path), the webhook
payload is still dispatched, with an empty attachments list and the
event's text intact.  The `except` at lines 99-101 confines the failure
to the media pipeline and the `except` at lines 199-200 means no exception
escapes the handler — the embedding reflects the latter by `on_new_message`
being a total function. -/
theorem inbound_media_failure_isolation (base : String) (w : InboundWorld)
    (ev : InboundEvent) (cache : AvatarCache)
    (hpriv : ev.isPrivate = true)
    (hmedia : ev.hasMedia = true)
    (hfail : w.downloadMediaResult = none ∨ w.downloadMediaResult = some none) :
    ((on_new_message base w ev cache).1.map
        (fun pl => (pl.attachments, pl.text, pl.event))) =
      some ([], ev.rawText?.getD "", "message.created") := by
  have hatt : save_telegram_media_and_get_attachments base w ev = [] := by
    unfold save_telegram_media_and_get_attachments
    rw [if_neg (by simp [hmedia])]
    rcases hfail with hf | hf <;> rw [hf]
  unfold on_new_message
  rw [if_neg (by simp [hpriv]), hatt]
  rfl

/-- Witness for C6: a private text message with media whose download
raises still dispatches `text = "hello"` with no attachments. -/
theorem inbound_media_failure_isolation_witness :
    ((on_new_message "https://b" c6World c6Event []).1.map
        (fun pl => (pl.attachments, pl.text, pl.event))) =
      some ([], "hello", "message.created") :=
  inbound_media_failure_isolation "https://b" c6World c6Event [] rfl rfl (Or.inl rfl)

/-- Claim C7: for a sender not yet in the avatar cache, (1) if the sender
has no photo, the first resolution performs the single photo-existence
check, caches `None` and returns `none`, and the second resolution is a
cache hit: it performs zero checks and returns the cached `none` —
at most one check across the two successive calls; (2) a failing or
empty `download_profile_photo` (a raise, or a falsy path) degrades to
`none` rather than raising — the resolver is a total function returning
an `Option`, never an exception. -/
theorem avatar_cache_idempotent_nophoto (base : String) (w : InboundWorld)
    (s : Sender) (cache : AvatarCache)
    (hid : s.id ≠ 0) (hmiss : cacheLookup cache s.id = none) :
    ((s.hasPhoto = false →
        (get_userpic_url base w (some s) cache).2.2 = 1 ∧
          (get_userpic_url base w (some s) cache).1 = none ∧
          (get_userpic_url base w (some s)
              (get_userpic_url base w (some s) cache).2.1).2.2 = 0 ∧
          (get_userpic_url base w (some s)
              (get_userpic_url base w (some s) cache).2.1).1 = none) ∧
      ((w.downloadProfilePhotoResult = none ∨ w.downloadProfilePhotoResult = some none) →
        (get_userpic_url base w (some s) cache).1 = none)) := by
  constructor
  · intro hphoto
    have hfirst : get_userpic_url base w (some s) cache =
        (none, cacheInsert cache s.id none, 1) := by
      simp only [get_userpic_url, hmiss, if_neg hid, if_pos hphoto]
    have hhit : cacheLookup (cacheInsert cache s.id none) s.id = some none := by
      unfold cacheInsert cacheLookup
      rw [if_pos rfl]
    have hsecond : get_userpic_url base w (some s) (cacheInsert cache s.id none) =
        (none, cacheInsert cache s.id none, 0) := by
      simp only [get_userpic_url, hhit, if_neg hid]
    rw [hfirst]
    exact ⟨rfl, rfl, by rw [hsecond], by rw [hsecond]⟩
  · intro hfail
    by_cases hphoto : s.hasPhoto = false
    · simp only [get_userpic_url, hmiss, if_neg hid, if_pos hphoto]
    · rcases hfail with hf | hf <;>
        simp only [get_userpic_url, hmiss, if_neg hid, if_neg hphoto, hf]

/-- Witness for C7: a photo-less sender resolved twice from an empty
cache: one check then a cache hit, both calls returning `none`, and a
raising `download_profile_photo` also returning `none`. -/
theorem avatar_cache_idempotent_nophoto_witness :
    ((c7Sender.hasPhoto = false →
        (get_userpic_url "https://b" c7World (some c7Sender) []).2.2 = 1 ∧
          (get_userpic_url "https://b" c7World (some c7Sender) []).1 = none ∧
          (get_userpic_url "https://b" c7World (some c7Sender)
              (get_userpic_url "https://b" c7World (some c7Sender) []).2.1).2.2 = 0 ∧
          (get_userpic_url "https://b" c7World (some c7Sender)
              (get_userpic_url "https://b" c7World (some c7Sender) []).2.1).1 = none) ∧
      ((c7World.downloadProfilePhotoResult = none ∨
          c7World.downloadProfilePhotoResult = some none) →
        (get_userpic_url "https://b" c7World (some c7Sender) []).1 = none)) :=
  avatar_cache_idempotent_nophoto "https://b" c7World c7Sender [] (by decide) rfl

end MTBridge
